import Mathlib

/-!
Shallow embedding of the SNMP device monitor (src/app.py) and proofs of the
specified properties of its core: the metric collector (`get_device_metrics`),
fleet scanner (`build_statuses`), summary aggregator (`build_status_summary`)
and the walk primitive (`snmp_walk`).

Modelling conventions:
* SNMP transport is an oracle `Net` giving, for each (community, ip, oid, port),
  the value a GET returns (`Option String`, `none` = timeout/error, matching
  `snmp_get` in app.py lines 58-91) and the ordered value sequence a WALK
  returns (matching `snmp_walk`, lines 94-128).
* Python dictionaries holding metric values are association lists
  `List (String × JVal)` in insertion order; Python `None` is `JVal.null`,
  Python floats arising from `/` are exact rationals `JVal.q`.
* Python `int(x)` on the strings of interest is `parseInt` (optional sign then
  decimal digits; the whitespace/underscore tolerance of Python `int` plays no
  role for SNMP values and is not modelled).
-/

namespace SnmpMonitor

/-- A JSON-like metric value: string, number (exact rational standing for the
Python int/float), or null (Python `None`). -/
inductive JVal where
  | s : String → JVal
  | q : ℚ → JVal
  | null : JVal
deriving DecidableEq, Repr

/-- Accumulate decimal digits; fails on the first non-digit character.
Models the digit loop of Python `int`. -/
def parseDigitsAux : Nat → List Char → Option Nat
  | acc, [] => some acc
  | acc, c :: cs =>
      if c.isDigit then parseDigitsAux (10 * acc + (c.toNat - 48)) cs
      else none

/-- A nonempty all-digit string of characters as a natural number. -/
def parseDigits : List Char → Option Nat
  | [] => none
  | c :: cs =>
      if c.isDigit then parseDigitsAux (c.toNat - 48) cs
      else none

/-- Models Python `int(x)` on the SNMP value strings: an optional sign followed
by one or more decimal digits; anything else raises ValueError, i.e. `none`. -/
def parseInt (x : String) : Option Int :=
  match x.toList with
  | '-' :: rest => (parseDigits rest).map (fun n => -(n : Int))
  | '+' :: rest => (parseDigits rest).map (fun n => (n : Int))
  | cs => (parseDigits cs).map (fun n => (n : Int))

/-- Models a Python list comprehension `[int(x) for x in xs]` inside a
`try ... except ValueError` block: `some` of all parsed values in order when
every entry parses, `none` as soon as any entry fails. -/
def parseIntList : List String → Option (List Int)
  | [] => some []
  | x :: xs =>
      match parseInt x, parseIntList xs with
      | some i, some is => some (i :: is)
      | _, _ => none

/-- The SNMP transport, as an oracle: `get community ip oid port` is the value
`snmp_get` (app.py lines 58-91) returns (`none` on errorIndication/errorStatus
or timeout), and `walk community ip oid port` is the ordered list of values
`snmp_walk` (lines 94-128) returns. -/
structure Net where
  get : String → String → String → Nat → Option String
  walk : String → String → String → Nat → List String

/-- One device entry from config.yaml, as `get_device_metrics` reads it:
`ip` required (config validation is out of scope), `name`, `community`, `port`
optional since the code supplies defaults via dict.get. -/
structure DeviceDescriptor where
  name : Option String
  ip : String
  community : Option String
  port : Option Nat
deriving DecidableEq, Repr

/-- Store an `Option String` as a dict value: Python stores `None` as-is. -/
def optVal : Option String → JVal
  | some v => JVal.s v
  | none => JVal.null

/-- The cpuLoad field of the metrics dict, from app.py lines 170-178: with a
non-empty walk result all of whose entries parse as integers, the mean
`sum(cpu_ints) / len(cpu_ints)`; null on an empty walk or any parse failure. -/
def cpuLoadField (cpu_load_values : List String) : JVal :=
  if cpu_load_values ≠ [] then
    match parseIntList cpu_load_values with
    | some cpu_ints => JVal.q ((cpu_ints.sum : ℚ) / (cpu_ints.length : ℚ))
    | none => JVal.null
  else JVal.null

/-- The memoryUsage field, from app.py lines 181-194: computed only when both
walks are non-empty, of equal length and fully integer-parseable, as
`used_total / size_total * 100.0` guarded by `size_total > 0`; null otherwise. -/
def memoryUsageField (used_values size_values : List String) : JVal :=
  if used_values ≠ [] ∧ size_values ≠ [] ∧ used_values.length = size_values.length then
    match parseIntList used_values, parseIntList size_values with
    | some used_ints, some size_ints =>
        let used_total := used_ints.sum
        let size_total := size_ints.sum
        if size_total > 0 then JVal.q ((used_total : ℚ) / (size_total : ℚ) * 100)
        else JVal.null
    | _, _ => JVal.null
  else JVal.null

/-- The three interface fields (interfacesUp, interfacesTotal, interfacesUpPct),
from app.py lines 197-213: with a non-empty fully-parseable walk result, the
count of entries equal to 1, the length, and `(up_count / total) * 100.0`;
all three null together otherwise. -/
def interfaceFields (if_statuses : List String) : JVal × JVal × JVal :=
  if if_statuses ≠ [] then
    match parseIntList if_statuses with
    | some statuses_int =>
        let up_count := statuses_int.countP (fun s => s == 1)
        let total := statuses_int.length
        (JVal.q (up_count : ℚ), JVal.q (total : ℚ),
          JVal.q (((up_count : ℚ) / (total : ℚ)) * 100))
    | none => (JVal.null, JVal.null, JVal.null)
  else (JVal.null, JVal.null, JVal.null)

/-- OID of the sysUpTime.0 connectivity probe. -/
def sysUpTimeOid : String := "1.3.6.1.2.1.1.3.0"

/-- OID of the sysName.0 scalar. -/
def sysNameOid : String := "1.3.6.1.2.1.1.5.0"

/-- Base OID of the hrProcessorLoad table. -/
def cpuLoadOid : String := "1.3.6.1.2.1.25.3.3.1.2"

/-- Base OID of the hrStorageUsed table. -/
def storageUsedOid : String := "1.3.6.1.2.1.25.2.3.1.6"

/-- Base OID of the hrStorageSize table. -/
def storageSizeOid : String := "1.3.6.1.2.1.25.2.3.1.5"

/-- Base OID of the ifOperStatus table. -/
def ifOperStatusOid : String := "1.3.6.1.2.1.2.2.1.8"

/-- app.py `get_device_metrics` (lines 131-215): the metrics dictionary for one
device, as an association list in the insertion order of the Python code. The
connectivity probe failing yields exactly the offline singleton; otherwise the
eight keys are set in order. -/
def get_device_metrics (net : Net) (device : DeviceDescriptor) : List (String × JVal) :=
  let ip := device.ip
  let community := device.community.getD "public"
  let port := device.port.getD 161
  match net.get community ip sysUpTimeOid port with
  | none => [("status", JVal.s "offline")]
  | some sys_up_time =>
      let sys_name := net.get community ip sysNameOid port
      let cpu := cpuLoadField (net.walk community ip cpuLoadOid port)
      let mem := memoryUsageField (net.walk community ip storageUsedOid port)
              (net.walk community ip storageSizeOid port)
      let ifs := interfaceFields (net.walk community ip ifOperStatusOid port)
      [("status", JVal.s "online"),
       ("sysUpTime", JVal.s sys_up_time),
       ("sysName", optVal sys_name),
       ("cpuLoad", cpu),
       ("memoryUsage", mem),
       ("interfacesUp", ifs.1),
       ("interfacesTotal", ifs.2.1),
       ("interfacesUpPct", ifs.2.2)]

/-- One SNMP operation issued by the collector. -/
inductive Query where
  | get : String → Query
  | walk : String → Query
deriving DecidableEq, Repr

/-- The sequence of SNMP operations `get_device_metrics` issues for one device,
read off the straight-line control flow of app.py lines 152-215: the probe GET
alone when it fails, else the probe, the sysName GET and the four walks. -/
def device_queries (net : Net) (device : DeviceDescriptor) : List Query :=
  let ip := device.ip
  let community := device.community.getD "public"
  let port := device.port.getD 161
  match net.get community ip sysUpTimeOid port with
  | none => [Query.get sysUpTimeOid]
  | some _ =>
      [Query.get sysUpTimeOid, Query.get sysNameOid,
       Query.walk cpuLoadOid, Query.walk storageUsedOid,
       Query.walk storageSizeOid, Query.walk ifOperStatusOid]

/-- A per-device status dictionary as `build_status_summary` may receive it:
each key optional, `none` modelling an absent dictionary key. The records
`build_statuses` produces always carry all three keys. -/
structure StatusRecord where
  name : Option String
  ip : Option String
  metrics : Option (List (String × JVal))

/-- app.py `build_statuses` (lines 218-231), with the config-supplied device
list and the transport made explicit parameters: one status record per device,
in input order, the name defaulting to the ip when absent. -/
def build_statuses (net : Net) : List DeviceDescriptor → List StatusRecord
  | [] => []
  | device :: rest =>
      { name := some (device.name.getD device.ip),
        ip := some device.ip,
        metrics := some (get_device_metrics net device) } :: build_statuses net rest

/-- The online/offline counts dictionary of `build_status_summary`. -/
structure Summary where
  online : Nat
  offline : Nat
deriving DecidableEq, Repr

/-- app.py `build_status_summary` (lines 17-38): fold over the status records,
incrementing `online` exactly when `device.get('metrics', {}).get('status')`
equals the string "online", and `offline` otherwise. -/
def build_status_summary (statuses : List StatusRecord) : Summary :=
  statuses.foldl
    (fun summary device =>
      if (device.metrics.getD []).lookup "status" = some (JVal.s "online") then
        { summary with online := summary.online + 1 }
      else
        { summary with offline := summary.offline + 1 })
    { online := 0, offline := 0 }

/-- One response tuple yielded by the nextCmd iterator inside `snmp_walk`:
whether errorIndication or errorStatus was set, and the varBind values. -/
structure WalkResponse where
  hasError : Bool
  varBinds : List String
deriving DecidableEq, Repr

/-- app.py `snmp_walk` (lines 115-128) over the stream of responses the nextCmd
iterator yields: append each response's values until the first error, at which
point the loop breaks and the results gathered so far are returned. -/
def snmp_walk : List WalkResponse → List String
  | [] => []
  | r :: rest => if r.hasError then [] else r.varBinds ++ snmp_walk rest

/-- The GET a device's metrics collection issues for one oid, with the
community/port defaulting exactly as in app.py lines 152-154. -/
def deviceGet (net : Net) (device : DeviceDescriptor) (oid : String) : Option String :=
  net.get (device.community.getD "public") device.ip oid (device.port.getD 161)

/-- The WALK a device's metrics collection issues for one base oid, with the
community/port defaulting exactly as in app.py lines 152-154. -/
def deviceWalk (net : Net) (device : DeviceDescriptor) (oid : String) : List String :=
  net.walk (device.community.getD "public") device.ip oid (device.port.getD 161)

/-! Concrete transports and devices used to instantiate the theorems. -/

/-- A transport on which every query succeeds: the probe returns "12345",
sysName "router1", and the four walks return the table data of the spec's
examples. -/
def netA : Net :=
  { get := fun _ _ oid _ => if oid = sysUpTimeOid then some "12345" else some "router1"
  , walk := fun _ _ oid _ =>
      if oid = cpuLoadOid then ["10", "20", "30"]
      else if oid = storageUsedOid then ["50", "50"]
      else if oid = storageSizeOid then ["100", "100"]
      else if oid = ifOperStatusOid then ["1", "1", "2"]
      else [] }

/-- A transport on which every query times out. -/
def netOff : Net :=
  { get := fun _ _ _ _ => none, walk := fun _ _ _ _ => [] }

/-- A transport whose storage-size walk sums to a negative integer while all
other conditions for computing memoryUsage hold. -/
def netNegSize : Net :=
  { get := fun _ _ _ _ => some "1"
  , walk := fun _ _ oid _ =>
      if oid = storageUsedOid then ["1"]
      else if oid = storageSizeOid then ["-1"]
      else [] }

/-- A device descriptor with only the required ip. -/
def devA : DeviceDescriptor :=
  { name := none, ip := "10.0.0.5", community := none, port := none }

/-! Helper lemmas about the collector. -/

/-- When the connectivity probe fails, the metrics dict is the offline
singleton. -/
theorem get_device_metrics_offline (net : Net) (device : DeviceDescriptor)
    (h : deviceGet net device sysUpTimeOid = none) :
    get_device_metrics net device = [("status", JVal.s "offline")] := by
  rw [deviceGet] at h
  simp only [get_device_metrics, h]

/-- When the connectivity probe succeeds, the metrics dict is the eight-key
online record. -/
theorem get_device_metrics_online (net : Net) (device : DeviceDescriptor) (u : String)
    (h : deviceGet net device sysUpTimeOid = some u) :
    get_device_metrics net device =
      [("status", JVal.s "online"),
       ("sysUpTime", JVal.s u),
       ("sysName", optVal (deviceGet net device sysNameOid)),
       ("cpuLoad", cpuLoadField (deviceWalk net device cpuLoadOid)),
       ("memoryUsage", memoryUsageField (deviceWalk net device storageUsedOid)
          (deviceWalk net device storageSizeOid)),
       ("interfacesUp", (interfaceFields (deviceWalk net device ifOperStatusOid)).1),
       ("interfacesTotal", (interfaceFields (deviceWalk net device ifOperStatusOid)).2.1),
       ("interfacesUpPct", (interfaceFields (deviceWalk net device ifOperStatusOid)).2.2)] := by
  rw [deviceGet] at h
  simp only [get_device_metrics, deviceGet, deviceWalk, h]

/-- A metrics dict whose status reads "online" comes from a successful probe. -/
theorem online_probe (net : Net) (device : DeviceDescriptor)
    (h : (get_device_metrics net device).lookup "status" = some (JVal.s "online")) :
    ∃ u, deviceGet net device sysUpTimeOid = some u := by
  cases heq : deviceGet net device sysUpTimeOid with
  | none =>
      rw [get_device_metrics_offline net device heq] at h
      exact absurd h (by decide)
  | some u => exact ⟨u, rfl⟩

/-- Online records hold the probe value under sysUpTime. -/
theorem lookup_sysUpTime (net : Net) (device : DeviceDescriptor) (u : String)
    (h : deviceGet net device sysUpTimeOid = some u) :
    (get_device_metrics net device).lookup "sysUpTime" = some (JVal.s u) := by
  rw [get_device_metrics_online net device u h]
  exact rfl

/-- Online records hold the cpuLoad field computed from the processor walk. -/
theorem lookup_cpuLoad (net : Net) (device : DeviceDescriptor) (u : String)
    (h : deviceGet net device sysUpTimeOid = some u) :
    (get_device_metrics net device).lookup "cpuLoad" =
      some (cpuLoadField (deviceWalk net device cpuLoadOid)) := by
  rw [get_device_metrics_online net device u h]
  exact rfl

/-- Online records hold the memoryUsage field computed from the two storage
walks. -/
theorem lookup_memoryUsage (net : Net) (device : DeviceDescriptor) (u : String)
    (h : deviceGet net device sysUpTimeOid = some u) :
    (get_device_metrics net device).lookup "memoryUsage" =
      some (memoryUsageField (deviceWalk net device storageUsedOid)
        (deviceWalk net device storageSizeOid)) := by
  rw [get_device_metrics_online net device u h]
  exact rfl

/-- Online records hold the interfacesUp field of the interface computation. -/
theorem lookup_interfacesUp (net : Net) (device : DeviceDescriptor) (u : String)
    (h : deviceGet net device sysUpTimeOid = some u) :
    (get_device_metrics net device).lookup "interfacesUp" =
      some (interfaceFields (deviceWalk net device ifOperStatusOid)).1 := by
  rw [get_device_metrics_online net device u h]
  exact rfl

/-- Online records hold the interfacesTotal field of the interface
computation. -/
theorem lookup_interfacesTotal (net : Net) (device : DeviceDescriptor) (u : String)
    (h : deviceGet net device sysUpTimeOid = some u) :
    (get_device_metrics net device).lookup "interfacesTotal" =
      some (interfaceFields (deviceWalk net device ifOperStatusOid)).2.1 := by
  rw [get_device_metrics_online net device u h]
  exact rfl

/-- Online records hold the interfacesUpPct field of the interface
computation. -/
theorem lookup_interfacesUpPct (net : Net) (device : DeviceDescriptor) (u : String)
    (h : deviceGet net device sysUpTimeOid = some u) :
    (get_device_metrics net device).lookup "interfacesUpPct" =
      some (interfaceFields (deviceWalk net device ifOperStatusOid)).2.2 := by
  rw [get_device_metrics_online net device u h]
  exact rfl

/-- A non-empty fully-parseable walk yields the mean as cpuLoad. -/
theorem cpuLoadField_mean (vals : List String) (ints : List Int)
    (hne : vals ≠ []) (hp : parseIntList vals = some ints) :
    cpuLoadField vals = JVal.q ((ints.sum : ℚ) / (ints.length : ℚ)) := by
  unfold cpuLoadField
  rw [if_pos hne, hp]

/-- An empty walk or a parse failure yields a null cpuLoad. -/
theorem cpuLoadField_null (vals : List String)
    (h : vals = [] ∨ parseIntList vals = none) :
    cpuLoadField vals = JVal.null := by
  rcases h with h | h
  · subst h; rfl
  · by_cases hne : vals = []
    · subst hne; rfl
    · unfold cpuLoadField
      rw [if_pos hne, h]

/-- C1: for every online device, if the processor-load walk returns a
non-empty sequence every entry of which parses as an integer, cpuLoad is the
arithmetic mean of those integers (as an exact rational); if the sequence is
empty or any entry fails to parse, cpuLoad is null — never a partial
average. -/
theorem cpuLoad_mean_or_null (net : Net) (device : DeviceDescriptor)
    (h : (get_device_metrics net device).lookup "status" = some (JVal.s "online")) :
    (∀ cpu_ints : List Int, deviceWalk net device cpuLoadOid ≠ [] →
        parseIntList (deviceWalk net device cpuLoadOid) = some cpu_ints →
        (get_device_metrics net device).lookup "cpuLoad" =
          some (JVal.q ((cpu_ints.sum : ℚ) / (cpu_ints.length : ℚ))))
    ∧ ((deviceWalk net device cpuLoadOid = [] ∨
          parseIntList (deviceWalk net device cpuLoadOid) = none) →
        (get_device_metrics net device).lookup "cpuLoad" = some JVal.null) := by
  obtain ⟨u, hu⟩ := online_probe net device h
  refine ⟨fun cpu_ints hne hp => ?_, fun hc => ?_⟩
  · rw [lookup_cpuLoad net device u hu, cpuLoadField_mean _ _ hne hp]
  · rw [lookup_cpuLoad net device u hu, cpuLoadField_null _ hc]

/-- Instantiation of C1 on a concrete transport: walk ["10","20","30"] gives
cpuLoad = (10+20+30)/3. -/
theorem cpuLoad_mean_or_null_witness :
    (get_device_metrics netA devA).lookup "status" = some (JVal.s "online")
    ∧ deviceWalk netA devA cpuLoadOid ≠ []
    ∧ parseIntList (deviceWalk netA devA cpuLoadOid) = some [10, 20, 30]
    ∧ (get_device_metrics netA devA).lookup "cpuLoad" =
        some (JVal.q ((([10, 20, 30] : List Int).sum : ℚ) /
          (([10, 20, 30] : List Int).length : ℚ))) :=
  ⟨by decide, by decide, by decide,
    (cpuLoad_mean_or_null netA devA (by decide)).1 [10, 20, 30] (by decide) (by decide)⟩

/-- With both walks non-empty, equal in length, fully parseable and a positive
size total, memoryUsage is the used/size percentage. -/
theorem memoryUsageField_pos (used_values size_values : List String)
    (us ss : List Int) (h1 : used_values ≠ []) (h2 : size_values ≠ [])
    (h3 : used_values.length = size_values.length)
    (hu : parseIntList used_values = some us) (hs : parseIntList size_values = some ss)
    (hpos : 0 < ss.sum) :
    memoryUsageField used_values size_values =
      JVal.q ((us.sum : ℚ) / (ss.sum : ℚ) * 100) := by
  unfold memoryUsageField
  rw [if_pos ⟨h1, h2, h3⟩, hu, hs]
  exact if_pos hpos

/-- With both walks non-empty, equal in length and fully parseable but a
non-positive size total, memoryUsage is null. -/
theorem memoryUsageField_nonpos (used_values size_values : List String)
    (us ss : List Int) (h1 : used_values ≠ []) (h2 : size_values ≠ [])
    (h3 : used_values.length = size_values.length)
    (hu : parseIntList used_values = some us) (hs : parseIntList size_values = some ss)
    (hle : ss.sum ≤ 0) :
    memoryUsageField used_values size_values = JVal.null := by
  unfold memoryUsageField
  rw [if_pos ⟨h1, h2, h3⟩, hu, hs]
  exact if_neg (not_lt.mpr hle)

/-- A failed guard (empty walk or length mismatch) or a parse failure makes
memoryUsage null. -/
theorem memoryUsageField_null (used_values size_values : List String)
    (h : ¬ (used_values ≠ [] ∧ size_values ≠ [] ∧
            used_values.length = size_values.length)
         ∨ parseIntList used_values = none ∨ parseIntList size_values = none) :
    memoryUsageField used_values size_values = JVal.null := by
  unfold memoryUsageField
  by_cases hg : used_values ≠ [] ∧ size_values ≠ [] ∧
      used_values.length = size_values.length
  · rw [if_pos hg]
    rcases h with h | h | h
    · exact absurd hg h
    · rw [h]
    · rw [h]
      cases parseIntList used_values <;> exact rfl
  · rw [if_neg hg]

/-- C2 as stated is false on the code: with used=["1"] and size=["-1"] both
walks are non-empty, equal in length and fully parseable, the size total -1 is
non-zero, yet the code yields null (it requires a strictly positive size
total), while the claim predicts 100 × 1 / (-1). -/
theorem memoryUsage_claim_counterexample :
    (get_device_metrics netNegSize devA).lookup "status" = some (JVal.s "online")
    ∧ deviceWalk netNegSize devA storageUsedOid = ["1"]
    ∧ deviceWalk netNegSize devA storageSizeOid = ["-1"]
    ∧ parseIntList ["1"] = some [1]
    ∧ parseIntList ["-1"] = some [-1]
    ∧ ([(-1 : Int)].sum ≠ 0)
    ∧ (get_device_metrics netNegSize devA).lookup "memoryUsage" = some JVal.null
    ∧ (get_device_metrics netNegSize devA).lookup "memoryUsage" ≠
        some (JVal.q (100 * (([1] : List Int).sum : ℚ) / (([-1] : List Int).sum : ℚ))) := by
  refine ⟨by decide, by decide, by decide, by decide, by decide, by decide, by decide, ?_⟩
  intro hcontra
  have hnull : (get_device_metrics netNegSize devA).lookup "memoryUsage" = some JVal.null := by
    decide
  rw [hnull] at hcontra
  exact JVal.noConfusion (Option.some.inj hcontra)

/-- C2 amended: for every online device, memoryUsage is computed only when
both storage walks are non-empty, equal in length and fully integer-parseable;
then memoryUsage = (sum used) / (sum size) × 100 when the size total is
strictly positive, and null when the size total is ≤ 0 (in particular 0).
Under any length mismatch, empty sequence, or parse failure it is null. -/
theorem memoryUsage_guarded (net : Net) (device : DeviceDescriptor)
    (h : (get_device_metrics net device).lookup "status" = some (JVal.s "online")) :
    (∀ us ss : List Int,
        deviceWalk net device storageUsedOid ≠ [] →
        deviceWalk net device storageSizeOid ≠ [] →
        (deviceWalk net device storageUsedOid).length =
          (deviceWalk net device storageSizeOid).length →
        parseIntList (deviceWalk net device storageUsedOid) = some us →
        parseIntList (deviceWalk net device storageSizeOid) = some ss →
        (0 < ss.sum →
          (get_device_metrics net device).lookup "memoryUsage" =
            some (JVal.q ((us.sum : ℚ) / (ss.sum : ℚ) * 100)))
        ∧ (ss.sum ≤ 0 →
          (get_device_metrics net device).lookup "memoryUsage" = some JVal.null))
    ∧ ((¬ (deviceWalk net device storageUsedOid ≠ [] ∧
           deviceWalk net device storageSizeOid ≠ [] ∧
           (deviceWalk net device storageUsedOid).length =
             (deviceWalk net device storageSizeOid).length)
        ∨ parseIntList (deviceWalk net device storageUsedOid) = none
        ∨ parseIntList (deviceWalk net device storageSizeOid) = none) →
        (get_device_metrics net device).lookup "memoryUsage" = some JVal.null) := by
  obtain ⟨u, hu⟩ := online_probe net device h
  refine ⟨fun us ss h1 h2 h3 hpu hps => ⟨fun hpos => ?_, fun hle => ?_⟩, fun hc => ?_⟩
  · rw [lookup_memoryUsage net device u hu,
      memoryUsageField_pos _ _ us ss h1 h2 h3 hpu hps hpos]
  · rw [lookup_memoryUsage net device u hu,
      memoryUsageField_nonpos _ _ us ss h1 h2 h3 hpu hps hle]
  · rw [lookup_memoryUsage net device u hu, memoryUsageField_null _ _ hc]

/-- Instantiation of the amended C2 on a concrete transport:
used=["50","50"], size=["100","100"] gives memoryUsage = 100/200 × 100. -/
theorem memoryUsage_guarded_witness :
    (get_device_metrics netA devA).lookup "status" = some (JVal.s "online")
    ∧ parseIntList (deviceWalk netA devA storageUsedOid) = some [50, 50]
    ∧ parseIntList (deviceWalk netA devA storageSizeOid) = some [100, 100]
    ∧ (0 : Int) < ([100, 100] : List Int).sum
    ∧ (get_device_metrics netA devA).lookup "memoryUsage" =
        some (JVal.q ((([50, 50] : List Int).sum : ℚ) /
          (([100, 100] : List Int).sum : ℚ) * 100)) :=
  ⟨by decide, by decide, by decide, by decide,
    ((memoryUsage_guarded netA devA (by decide)).1 [50, 50] [100, 100]
      (by decide) (by decide) (by decide) (by decide) (by decide)).1 (by decide)⟩

/-- A non-empty fully-parseable walk yields the up count, the total and the
up percentage. -/
theorem interfaceFields_parsed (if_statuses : List String) (ints : List Int)
    (hne : if_statuses ≠ []) (hp : parseIntList if_statuses = some ints) :
    interfaceFields if_statuses =
      (JVal.q ((ints.countP (fun s => s == 1) : ℚ)),
       JVal.q ((ints.length : ℚ)),
       JVal.q (((ints.countP (fun s => s == 1) : ℚ) / (ints.length : ℚ)) * 100)) := by
  unfold interfaceFields
  rw [if_pos hne, hp]

/-- An empty walk or a parse failure nulls all three interface fields. -/
theorem interfaceFields_null (if_statuses : List String)
    (h : if_statuses = [] ∨ parseIntList if_statuses = none) :
    interfaceFields if_statuses = (JVal.null, JVal.null, JVal.null) := by
  rcases h with h | h
  · subst h; rfl
  · by_cases hne : if_statuses = []
    · subst hne; rfl
    · unfold interfaceFields
      rw [if_pos hne, h]

/-- C3: for every online device, a non-empty fully-parseable interface walk
yields interfacesUp = count of entries equal to 1, interfacesTotal = sequence
length, interfacesUpPct = 100 × up/total; an empty walk or any parse failure
nulls all three fields together. -/
theorem interface_fields_spec (net : Net) (device : DeviceDescriptor)
    (h : (get_device_metrics net device).lookup "status" = some (JVal.s "online")) :
    (∀ statuses_int : List Int, deviceWalk net device ifOperStatusOid ≠ [] →
        parseIntList (deviceWalk net device ifOperStatusOid) = some statuses_int →
        (get_device_metrics net device).lookup "interfacesUp" =
            some (JVal.q ((statuses_int.countP (fun s => s == 1) : ℚ)))
        ∧ (get_device_metrics net device).lookup "interfacesTotal" =
            some (JVal.q ((statuses_int.length : ℚ)))
        ∧ (get_device_metrics net device).lookup "interfacesUpPct" =
            some (JVal.q (100 * (statuses_int.countP (fun s => s == 1) : ℚ) /
              (statuses_int.length : ℚ))))
    ∧ ((deviceWalk net device ifOperStatusOid = [] ∨
          parseIntList (deviceWalk net device ifOperStatusOid) = none) →
        (get_device_metrics net device).lookup "interfacesUp" = some JVal.null
        ∧ (get_device_metrics net device).lookup "interfacesTotal" = some JVal.null
        ∧ (get_device_metrics net device).lookup "interfacesUpPct" = some JVal.null) := by
  obtain ⟨u, hu⟩ := online_probe net device h
  constructor
  · intro statuses_int hne hp
    refine ⟨?_, ?_, ?_⟩
    · rw [lookup_interfacesUp net device u hu, interfaceFields_parsed _ _ hne hp]
    · rw [lookup_interfacesTotal net device u hu, interfaceFields_parsed _ _ hne hp]
    · rw [lookup_interfacesUpPct net device u hu, interfaceFields_parsed _ _ hne hp]
      have heq : ((statuses_int.countP (fun s => s == 1) : ℚ) /
            (statuses_int.length : ℚ)) * 100 =
          100 * (statuses_int.countP (fun s => s == 1) : ℚ) / (statuses_int.length : ℚ) := by
        ring
      rw [heq]
  · intro hc
    refine ⟨?_, ?_, ?_⟩
    · rw [lookup_interfacesUp net device u hu, interfaceFields_null _ hc]
    · rw [lookup_interfacesTotal net device u hu, interfaceFields_null _ hc]
    · rw [lookup_interfacesUpPct net device u hu, interfaceFields_null _ hc]

/-- Instantiation of C3 on a concrete transport: walk ["1","1","2"] gives
up=2, total=3, pct = 100 × 2/3. -/
theorem interface_fields_spec_witness :
    (get_device_metrics netA devA).lookup "status" = some (JVal.s "online")
    ∧ deviceWalk netA devA ifOperStatusOid ≠ []
    ∧ parseIntList (deviceWalk netA devA ifOperStatusOid) = some [1, 1, 2]
    ∧ (([1, 1, 2] : List Int).countP (fun s => s == 1) = 2)
    ∧ (([1, 1, 2] : List Int).length = 3)
    ∧ (get_device_metrics netA devA).lookup "interfacesUp" =
        some (JVal.q ((([1, 1, 2] : List Int).countP (fun s => s == 1) : ℚ)))
    ∧ (get_device_metrics netA devA).lookup "interfacesUpPct" =
        some (JVal.q (100 * (([1, 1, 2] : List Int).countP (fun s => s == 1) : ℚ) /
          (([1, 1, 2] : List Int).length : ℚ))) :=
  ⟨by decide, by decide, by decide, by decide, by decide,
    ((interface_fields_spec netA devA (by decide)).1 [1, 1, 2] (by decide) (by decide)).1,
    ((interface_fields_spec netA devA (by decide)).1 [1, 1, 2] (by decide) (by decide)).2.2⟩

/-- C4: a failed connectivity probe yields exactly the offline singleton
record and exactly one issued query (the probe GET) — no further GET or WALK;
conversely an online record carries precisely the eight documented keys. -/
theorem offline_short_circuit_and_online_keys (net : Net) (device : DeviceDescriptor) :
    (deviceGet net device sysUpTimeOid = none →
        get_device_metrics net device = [("status", JVal.s "offline")]
        ∧ device_queries net device = [Query.get sysUpTimeOid])
    ∧ ((get_device_metrics net device).lookup "status" = some (JVal.s "online") →
        (get_device_metrics net device).map Prod.fst =
          ["status", "sysUpTime", "sysName", "cpuLoad", "memoryUsage",
           "interfacesUp", "interfacesTotal", "interfacesUpPct"]) := by
  constructor
  · intro h
    refine ⟨get_device_metrics_offline net device h, ?_⟩
    rw [deviceGet] at h
    simp only [device_queries, h]
  · intro h
    obtain ⟨u, hu⟩ := online_probe net device h
    rw [get_device_metrics_online net device u hu]
    exact rfl

/-- Instantiation of C4: an unresponsive transport yields the bare offline
record and a single query, and a responsive one yields the eight keys. -/
theorem offline_short_circuit_and_online_keys_witness :
    (get_device_metrics netOff devA = [("status", JVal.s "offline")]
      ∧ device_queries netOff devA = [Query.get sysUpTimeOid])
    ∧ (get_device_metrics netA devA).map Prod.fst =
        ["status", "sysUpTime", "sysName", "cpuLoad", "memoryUsage",
         "interfacesUp", "interfacesTotal", "interfacesUpPct"] :=
  ⟨(offline_short_circuit_and_online_keys netOff devA).1 rfl,
   (offline_short_circuit_and_online_keys netA devA).2 (by decide)⟩

/-- C9: an online record always holds the probe value as a non-null string
under sysUpTime, and the only keys that can hold null are sysName, cpuLoad,
memoryUsage and the three interface fields. -/
theorem online_sysUpTime_nonnull (net : Net) (device : DeviceDescriptor)
    (h : (get_device_metrics net device).lookup "status" = some (JVal.s "online")) :
    (∃ u, deviceGet net device sysUpTimeOid = some u
        ∧ (get_device_metrics net device).lookup "sysUpTime" = some (JVal.s u))
    ∧ ∀ p ∈ get_device_metrics net device, p.2 = JVal.null →
        p.1 ∈ ["sysName", "cpuLoad", "memoryUsage",
               "interfacesUp", "interfacesTotal", "interfacesUpPct"] := by
  obtain ⟨u, hu⟩ := online_probe net device h
  refine ⟨⟨u, hu, lookup_sysUpTime net device u hu⟩, ?_⟩
  intro p hp hnull
  rw [get_device_metrics_online net device u hu] at hp
  simp only [List.mem_cons, List.not_mem_nil, or_false] at hp
  rcases hp with rfl | rfl | rfl | rfl | rfl | rfl | rfl | rfl
  · exact JVal.noConfusion hnull
  · exact JVal.noConfusion hnull
  all_goals simp

/-- Instantiation of C9 on a concrete responsive transport. -/
theorem online_sysUpTime_nonnull_witness :
    ∃ u, deviceGet netA devA sysUpTimeOid = some u
      ∧ (get_device_metrics netA devA).lookup "sysUpTime" = some (JVal.s u) :=
  (online_sysUpTime_nonnull netA devA (by decide)).1

/-- Every successful parse preserves the sequence length. -/
theorem parseIntList_length (xs : List String) (is : List Int)
    (h : parseIntList xs = some is) : is.length = xs.length := by
  induction xs generalizing is with
  | nil =>
      cases h
      rfl
  | cons x xs ih =>
      unfold parseIntList at h
      cases hx : parseInt x with
      | none =>
          rw [hx] at h
          exact Option.noConfusion h
      | some i =>
          rw [hx] at h
          cases hrest : parseIntList xs with
          | none =>
              rw [hrest] at h
              exact Option.noConfusion h
          | some is2 =>
              rw [hrest] at h
              cases h
              simp [ih is2 hrest]

/-- C10: whenever the interface fields are non-null numbers, the total is at
least 1 (the division's divisor is safe), the up count lies between 0 and the
total, and the percentage lies in [0, 100]. -/
theorem interface_pct_bounds (net : Net) (device : DeviceDescriptor) :
    (∀ c t : ℚ,
        (get_device_metrics net device).lookup "interfacesUp" = some (JVal.q c) →
        (get_device_metrics net device).lookup "interfacesTotal" = some (JVal.q t) →
        1 ≤ t ∧ 0 ≤ c ∧ c ≤ t)
    ∧ (∀ p : ℚ,
        (get_device_metrics net device).lookup "interfacesUpPct" = some (JVal.q p) →
        0 ≤ p ∧ p ≤ 100) := by
  constructor
  · intro c t h1 h2
    cases hprobe : deviceGet net device sysUpTimeOid with
    | none =>
        rw [get_device_metrics_offline net device hprobe] at h1
        simp [List.lookup] at h1
    | some u =>
        rw [lookup_interfacesUp net device u hprobe] at h1
        rw [lookup_interfacesTotal net device u hprobe] at h2
        by_cases hne : deviceWalk net device ifOperStatusOid = []
        · rw [interfaceFields_null _ (Or.inl hne)] at h1
          exact JVal.noConfusion (Option.some.inj h1)
        · cases hp : parseIntList (deviceWalk net device ifOperStatusOid) with
          | none =>
              rw [interfaceFields_null _ (Or.inr hp)] at h1
              exact JVal.noConfusion (Option.some.inj h1)
          | some ints =>
              rw [interfaceFields_parsed _ _ hne hp] at h1 h2
              have hc : ((ints.countP (fun s => s == 1) : ℚ)) = c :=
                JVal.q.inj (Option.some.inj h1)
              have ht : ((ints.length : ℚ)) = t :=
                JVal.q.inj (Option.some.inj h2)
              subst hc
              subst ht
              have hlen : ints.length = (deviceWalk net device ifOperStatusOid).length :=
                parseIntList_length _ _ hp
              have hlen1 : 1 ≤ ints.length := by
                rw [hlen]
                exact Nat.one_le_iff_ne_zero.mpr (by simpa using hne)
              refine ⟨by exact_mod_cast hlen1, by positivity, ?_⟩
              exact_mod_cast List.countP_le_length _
  · intro p h1
    cases hprobe : deviceGet net device sysUpTimeOid with
    | none =>
        rw [get_device_metrics_offline net device hprobe] at h1
        simp [List.lookup] at h1
    | some u =>
        rw [lookup_interfacesUpPct net device u hprobe] at h1
        by_cases hne : deviceWalk net device ifOperStatusOid = []
        · rw [interfaceFields_null _ (Or.inl hne)] at h1
          exact JVal.noConfusion (Option.some.inj h1)
        · cases hp : parseIntList (deviceWalk net device ifOperStatusOid) with
          | none =>
              rw [interfaceFields_null _ (Or.inr hp)] at h1
              exact JVal.noConfusion (Option.some.inj h1)
          | some ints =>
              rw [interfaceFields_parsed _ _ hne hp] at h1
              have hval : ((ints.countP (fun s => s == 1) : ℚ) / (ints.length : ℚ)) * 100 = p :=
                JVal.q.inj (Option.some.inj h1)
              have hlen1 : 1 ≤ ints.length := by
                rw [parseIntList_length _ _ hp]
                exact Nat.one_le_iff_ne_zero.mpr (by simpa using hne)
              have htq : (1 : ℚ) ≤ (ints.length : ℚ) := by exact_mod_cast hlen1
              have hcq : ((ints.countP (fun s => s == 1) : ℚ)) ≤ (ints.length : ℚ) := by
                exact_mod_cast List.countP_le_length _
              have h0 : (0 : ℚ) ≤ ((ints.countP (fun s => s == 1) : ℚ)) := by positivity
              have hdiv : ((ints.countP (fun s => s == 1) : ℚ) / (ints.length : ℚ)) ≤ 1 :=
                div_le_one_of_le₀ hcq (by linarith)
              constructor
              · rw [← hval]
                positivity
              · rw [← hval]
                nlinarith

/-- Instantiation of C10 on a concrete transport: walk ["1","1","2"] gives a
percentage between 0 and 100. -/
theorem interface_pct_bounds_witness :
    (get_device_metrics netA devA).lookup "interfacesUpPct" =
      some (JVal.q (((([1, 1, 2] : List Int).countP (fun s => s == 1) : ℚ) /
        (([1, 1, 2] : List Int).length : ℚ)) * 100))
    ∧ (0 ≤ ((([1, 1, 2] : List Int).countP (fun s => s == 1) : ℚ) /
          (([1, 1, 2] : List Int).length : ℚ)) * 100
       ∧ ((([1, 1, 2] : List Int).countP (fun s => s == 1) : ℚ) /
          (([1, 1, 2] : List Int).length : ℚ)) * 100 ≤ 100) := by
  have hpct : (get_device_metrics netA devA).lookup "interfacesUpPct" =
      some (JVal.q (((([1, 1, 2] : List Int).countP (fun s => s == 1) : ℚ) /
        (([1, 1, 2] : List Int).length : ℚ)) * 100)) := by
    rw [lookup_interfacesUpPct netA devA "12345" (by decide),
      interfaceFields_parsed (deviceWalk netA devA ifOperStatusOid) [1, 1, 2]
        (by decide) (by decide)]
  exact ⟨hpct, (interface_pct_bounds netA devA).2 _ hpct⟩

/-- The summary fold adds the number of records scanned to the sum of the
accumulator's two counters. -/
theorem build_status_summary_total_aux (statuses : List StatusRecord) (a : Summary) :
    (statuses.foldl
      (fun summary device =>
        if (device.metrics.getD []).lookup "status" = some (JVal.s "online") then
          { summary with online := summary.online + 1 }
        else
          { summary with offline := summary.offline + 1 }) a).online
    + (statuses.foldl
      (fun summary device =>
        if (device.metrics.getD []).lookup "status" = some (JVal.s "online") then
          { summary with online := summary.online + 1 }
        else
          { summary with offline := summary.offline + 1 }) a).offline
    = a.online + a.offline + statuses.length := by
  induction statuses generalizing a with
  | nil => rfl
  | cons d rest ih =>
      rw [List.foldl_cons]
      by_cases hd : (d.metrics.getD []).lookup "status" = some (JVal.s "online")
      · rw [if_pos hd, ih]
        simp only [List.length_cons]
        omega
      · rw [if_neg hd, ih]
        simp only [List.length_cons]
        omega

/-- The summary fold counts, on top of the accumulator, exactly the records
whose metrics hold the status string "online", and in the other counter
exactly the remaining records. -/
theorem build_status_summary_count_aux (statuses : List StatusRecord) (a : Summary) :
    (statuses.foldl
      (fun summary device =>
        if (device.metrics.getD []).lookup "status" = some (JVal.s "online") then
          { summary with online := summary.online + 1 }
        else
          { summary with offline := summary.offline + 1 }) a).online
      = a.online + statuses.countP
          (fun device =>
            decide ((device.metrics.getD []).lookup "status" = some (JVal.s "online")))
    ∧ (statuses.foldl
      (fun summary device =>
        if (device.metrics.getD []).lookup "status" = some (JVal.s "online") then
          { summary with online := summary.online + 1 }
        else
          { summary with offline := summary.offline + 1 }) a).offline
      = a.offline + statuses.countP
          (fun device =>
            ! decide ((device.metrics.getD []).lookup "status" = some (JVal.s "online"))) := by
  induction statuses generalizing a with
  | nil => exact ⟨rfl, rfl⟩
  | cons d rest ih =>
      rw [List.foldl_cons]
      by_cases hd : (d.metrics.getD []).lookup "status" = some (JVal.s "online")
      · rw [if_pos hd]
        refine ⟨?_, ?_⟩
        · rw [(ih _).1, List.countP_cons]
          simp [hd]
          omega
        · rw [(ih _).2, List.countP_cons]
          simp [hd]
      · rw [if_neg hd]
        refine ⟨?_, ?_⟩
        · rw [(ih _).1, List.countP_cons]
          simp [hd]
        · rw [(ih _).2, List.countP_cons]
          simp [hd]
          omega

/-- C5: the summary's two counters are non-negative and sum to the number of
status records scanned. -/
theorem summary_total_counts (statuses : List StatusRecord) :
    0 ≤ (build_status_summary statuses).online
    ∧ 0 ≤ (build_status_summary statuses).offline
    ∧ (build_status_summary statuses).online + (build_status_summary statuses).offline
        = statuses.length := by
  refine ⟨Nat.zero_le _, Nat.zero_le _, ?_⟩
  have h := build_status_summary_total_aux statuses { online := 0, offline := 0 }
  simpa [build_status_summary] using h

/-- C6: a record counts toward the online counter exactly when its metrics
mapping holds the string "online" under the status key; every other record —
missing metrics mapping, missing or null status, any other value — counts
toward the offline counter. -/
theorem summary_online_iff (statuses : List StatusRecord) :
    (build_status_summary statuses).online
      = statuses.countP
          (fun device =>
            decide ((device.metrics.getD []).lookup "status" = some (JVal.s "online")))
    ∧ (build_status_summary statuses).offline
      = statuses.countP
          (fun device =>
            ! decide ((device.metrics.getD []).lookup "status" = some (JVal.s "online"))) := by
  have h := build_status_summary_count_aux statuses { online := 0, offline := 0 }
  constructor
  · have := h.1
    simpa [build_status_summary] using this
  · have := h.2
    simpa [build_status_summary] using this

/-- C7: the scan yields one record per input descriptor, positionally aligned
with the input (so no deduplication of equal ips), with the name falling back
to the ip when absent and the metrics taken per device. -/
theorem build_statuses_order_and_names (net : Net) (devices : List DeviceDescriptor) :
    (build_statuses net devices).length = devices.length
    ∧ ∀ i : Nat, (build_statuses net devices).get? i = (devices.get? i).map
        (fun device =>
          { name := some (device.name.getD device.ip),
            ip := some device.ip,
            metrics := some (get_device_metrics net device) }) := by
  induction devices with
  | nil => exact ⟨rfl, fun i => by cases i <;> rfl⟩
  | cons d rest ih =>
      refine ⟨?_, fun i => ?_⟩
      · simpa [build_statuses] using ih.1
      · cases i with
        | zero => rfl
        | succ n => exact ih.2 n

/-- C8: a walk whose response stream carries error-free responses and then an
error returns exactly the values received before that first error, in order;
a walk whose very first response is an error returns the empty sequence. -/
theorem snmp_walk_partial_results (pre : List WalkResponse) (e : WalkResponse)
    (post : List WalkResponse)
    (hpre : ∀ r ∈ pre, r.hasError = false) (he : e.hasError = true) :
    snmp_walk (pre ++ e :: post) = (pre.map WalkResponse.varBinds).flatten
    ∧ snmp_walk (e :: post) = [] := by
  constructor
  · induction pre with
    | nil => simp [snmp_walk, he]
    | cons r rest ih =>
        have hr : r.hasError = false := hpre r (List.mem_cons_self r rest)
        have htail : snmp_walk (rest ++ e :: post) = (rest.map WalkResponse.varBinds).flatten :=
          ih (fun x hx => hpre x (List.mem_cons_of_mem r hx))
        simp [snmp_walk, hr, htail]
  · simp [snmp_walk, he]

/-- Instantiation of C8: two good responses, then an error, then more data:
the walk returns exactly the first two responses' values. -/
theorem snmp_walk_partial_results_witness :
    (∀ r ∈ [WalkResponse.mk false ["a", "b"], WalkResponse.mk false ["c"]],
        r.hasError = false)
    ∧ (WalkResponse.mk true ["d"]).hasError = true
    ∧ snmp_walk ([WalkResponse.mk false ["a", "b"], WalkResponse.mk false ["c"]] ++
        WalkResponse.mk true ["d"] :: [WalkResponse.mk false ["e"]]) =
        ([WalkResponse.mk false ["a", "b"], WalkResponse.mk false ["c"]].map
          WalkResponse.varBinds).flatten
    ∧ snmp_walk (WalkResponse.mk true ["d"] :: [WalkResponse.mk false ["e"]]) = [] :=
  ⟨by decide, by decide,
    (snmp_walk_partial_results [WalkResponse.mk false ["a", "b"],
      WalkResponse.mk false ["c"]] (WalkResponse.mk true ["d"])
      [WalkResponse.mk false ["e"]] (by decide) (by decide)).1,
    (snmp_walk_partial_results [WalkResponse.mk false ["a", "b"],
      WalkResponse.mk false ["c"]] (WalkResponse.mk true ["d"])
      [WalkResponse.mk false ["e"]] (by decide) (by decide)).2⟩

end SnmpMonitor
